import Mathlib

/-!
Verification of the FieldPill widget
(src/src/components/FieldList/FieldPill.tsx).

The file embeds the interaction core of the component: the pointer-kind
disambiguation, the click-to-select logic, the drag transfer handlers and
the nominal/ordinal type-toggle control. External collaborators that are
not part of the source tree (the shared AppContext store and the
DetectedField/FieldType declarations from src/types) are modelled from the
specification and marked as such.
-/

namespace FieldPill

/-- Modelled from the spec: `FieldType` from src/types (not under src/),
an enumeration of exactly four values. -/
inductive FieldType where
  | quantitative
  | nominal
  | ordinal
  | temporal
deriving DecidableEq

/-- Modelled from the spec: `DetectedField` from src/types (not under
src/), a record of a field name and its inferred type. -/
structure DetectedField where
  name : String
  type : FieldType
deriving DecidableEq

/-- The string form of a FieldType, as it appears in the TS union type and
in the JSON serialization of a field. -/
def fieldTypeName : FieldType → String
  | FieldType.quantitative => "quantitative"
  | FieldType.nominal => "nominal"
  | FieldType.ordinal => "ordinal"
  | FieldType.temporal => "temporal"

/-- The TYPE_COLORS record literal (FieldPill.tsx lines 5-10), embedded as
the association list of its entries so that key lookup is an explicit
operation that can fail. -/
def TYPE_COLORS : List (FieldType × String) :=
  [(FieldType.quantitative, "var(--color-quantitative)"),
   (FieldType.nominal, "var(--color-nominal)"),
   (FieldType.ordinal, "var(--color-ordinal)"),
   (FieldType.temporal, "var(--color-temporal)")]

/-- The TYPE_LABELS record literal (FieldPill.tsx lines 12-17). -/
def TYPE_LABELS : List (FieldType × String) :=
  [(FieldType.quantitative, "Q"),
   (FieldType.nominal, "N"),
   (FieldType.ordinal, "O"),
   (FieldType.temporal, "T")]

/-- Key lookup in a record embedded as an association list; `none` models
a missing-key fault. -/
def recordLookup (entries : List (FieldType × String)) (key : FieldType) :
    Option String :=
  match entries with
  | [] => none
  | (k, v) :: rest => if k = key then some v else recordLookup rest key

/-- The pointer-kind classification held in `lastPointerTypeRef`
(FieldPill.tsx line 28): the TS union of the string literals mouse, pen,
touch, unknown. -/
inductive PointerKind where
  | mouse
  | pen
  | touch
  | unknown
deriving DecidableEq

/-- The per-instance transient state of one pill: the two useState
booleans and the pointer-kind ref (FieldPill.tsx lines 26-28). -/
structure PillState where
  isHovered : Bool
  isDragging : Bool
  lastPointerType : PointerKind
deriving DecidableEq

/-- Initial per-instance state: useState(false), useState(false),
useRef(unknown). -/
def PillState.init : PillState :=
  { isHovered := false, isDragging := false,
    lastPointerType := PointerKind.unknown }

/-- The normalization performed by handlePointerDown (FieldPill.tsx lines
33-36): a reported pointerType string equal to mouse, pen or touch is kept,
anything else collapses to unknown. -/
def normalizePointerType (reported : String) : PointerKind :=
  if reported = "mouse" then PointerKind.mouse
  else if reported = "pen" then PointerKind.pen
  else if reported = "touch" then PointerKind.touch
  else PointerKind.unknown

/-- handlePointerDown (FieldPill.tsx lines 32-37): writes the normalized
pointer kind of the event to the ref, touching nothing else. -/
def handlePointerDown (reported : String) (st : PillState) : PillState :=
  { st with lastPointerType := normalizePointerType reported }

/-- A request issued by the pill to the shared state container: one of the
three collaborator operations consumed via useApp. -/
inductive AppCommand where
  | selectField (f : DetectedField)
  | clearSelectedField
  | toggleFieldType (name : String)
deriving DecidableEq

/-- Modelled from the spec: the externally owned shared state behind
useApp (AppContext is not under src/): the single global selected field,
or none, together with the field registry mapping names to types. -/
structure AppSharedState where
  selectedField : Option DetectedField
  fieldTypes : List (String × FieldType)
deriving DecidableEq

/-- Modelled from the spec: the type flip requested by the toggle control,
nominal and ordinal exchanged, no other transition reachable. -/
def flipNominalOrdinal : FieldType → FieldType
  | FieldType.nominal => FieldType.ordinal
  | FieldType.ordinal => FieldType.nominal
  | t => t

/-- Modelled from the spec: toggleFieldType(name) flips the registered
type of the named field in the shared registry. -/
def toggleTypeIn (name : String) :
    List (String × FieldType) → List (String × FieldType)
  | [] => []
  | (n, t) :: rest =>
      if n = name then (n, flipNominalOrdinal t) :: rest
      else (n, t) :: toggleTypeIn name rest

/-- Modelled from the spec: the semantics of the three collaborator
operations on the shared state. selectField sets the global selection,
replacing any previous one; clearSelectedField clears it; toggleFieldType
flips the registered type of the named field and leaves the selection
untouched. -/
def applyCommand (s : AppSharedState) : AppCommand → AppSharedState
  | AppCommand.selectField f => { s with selectedField := some f }
  | AppCommand.clearSelectedField => { s with selectedField := none }
  | AppCommand.toggleFieldType n =>
      { s with fieldTypes := toggleTypeIn n s.fieldTypes }

/-- Sequencing of the commands issued during one handler invocation. -/
def applyCommands (cs : List AppCommand) (s : AppSharedState) :
    AppSharedState :=
  cs.foldl applyCommand s

/-- isSelected (FieldPill.tsx line 30): the optional-chained name
comparison state.selectedField?.name === field.name; when no field is
selected the comparison is against undefined and yields false. -/
def isSelected (selectedField : Option DetectedField)
    (field : DetectedField) : Bool :=
  match selectedField with
  | some sel => sel.name == field.name
  | none => false

/-- handleClick (FieldPill.tsx lines 39-48): only when the last recorded
pointer kind is touch, either clear the selection (field currently
selected) or select this field; otherwise do nothing. The handler only
issues commands to the shared store. -/
def handleClick (st : PillState) (selectedField : Option DetectedField)
    (field : DetectedField) : List AppCommand :=
  if st.lastPointerType = PointerKind.touch then
    if isSelected selectedField field then [AppCommand.clearSelectedField]
    else [AppCommand.selectField field]
  else []

/-- One click event delivered to the pill: the handler body runs, its
commands are applied to the shared state, and the per-instance state is
left as the handler body leaves it (handleClick writes neither of the two
useState flags nor the ref). -/
def pillClick (field : DetectedField) (st : PillState)
    (s : AppSharedState) : PillState × AppSharedState :=
  (st, applyCommands (handleClick st s.selectedField field) s)

/-- The structural content of the JSON document produced by
JSON.stringify on a flat object of string-valued properties: its member
list, in declaration order. -/
structure JsonObject where
  members : List (String × String)
deriving DecidableEq

/-- JSON.stringify(field) where field is a DetectedField: a JSON object
with exactly the members name and type, in declaration order. -/
def stringifyField (field : DetectedField) : JsonObject :=
  { members :=
      [("name", field.name), ("type", fieldTypeName field.type)] }

/-- The platform DataTransfer object of a drag event: stored items keyed
by media type, plus the effectAllowed property. -/
structure DataTransfer where
  items : List (String × JsonObject)
  effectAllowed : String
deriving DecidableEq

/-- DataTransfer.setData: replaces any item stored under the given media
type with the new payload. -/
def DataTransfer.setData (dt : DataTransfer) (format : String)
    (payload : JsonObject) : DataTransfer :=
  { dt with
      items := dt.items.filter (fun it => !(it.1 == format))
                 ++ [(format, payload)] }

/-- DataTransfer.getData: the payload stored under a media type, if any. -/
def DataTransfer.getData (dt : DataTransfer) (format : String) :
    Option JsonObject :=
  (dt.items.find? (fun it => it.1 == format)).map Prod.snd

/-- handleDragStart (FieldPill.tsx lines 50-55): store the serialized
field under application/json, declare the copy drop effect, set the
dragging flag. -/
def handleDragStart (field : DetectedField) (dt : DataTransfer)
    (st : PillState) : DataTransfer × PillState :=
  ({ DataTransfer.setData dt "application/json" (stringifyField field) with
       effectAllowed := "copy" },
   { st with isDragging := true })

/-- handleDragEnd (FieldPill.tsx lines 57-59): unconditionally clear the
dragging flag. -/
def handleDragEnd (st : PillState) : PillState :=
  { st with isDragging := false }

/-- canToggle (FieldPill.tsx line 61). -/
def canToggle (field : DetectedField) : Bool :=
  field.type == FieldType.ordinal || field.type == FieldType.nominal

/-- The render condition of the toggle button (FieldPill.tsx line 136):
canToggle && isHovered. -/
def toggleRendered (field : DetectedField) (st : PillState) : Bool :=
  canToggle field && st.isHovered

/-- The outcome of the toggle button onClick handler (FieldPill.tsx lines
138-141): whether propagation is stopped, and the commands issued. -/
structure ToggleClickResult where
  stopProp : Bool
  commands : List AppCommand
deriving DecidableEq

/-- The toggle button onClick handler: e.stopPropagation() then
toggleFieldType(field.name). -/
def toggleButtonClick (field : DetectedField) : ToggleClickResult :=
  { stopProp := true,
    commands := [AppCommand.toggleFieldType field.name] }

/-- One click event delivered to the toggle button: the button handler
runs; if it did not stop propagation the event would bubble to the pill
onClick handler and run pillClick on the resulting state. -/
def clickOnToggle (field : DetectedField) (st : PillState)
    (s : AppSharedState) : PillState × AppSharedState :=
  let r := toggleButtonClick field
  let s1 := applyCommands r.commands s
  if r.stopProp then (st, s1)
  else pillClick field st s1

/- Sample values used by witnesses and counterexamples. -/

/-- A sample field. -/
def sampleField : DetectedField :=
  { name := "revenue", type := FieldType.quantitative }

/-- A second sample field with a different name. -/
def otherField : DetectedField :=
  { name := "profit", type := FieldType.nominal }

/-- A pill state whose last recorded pointer kind is touch. -/
def stTouch : PillState :=
  { isHovered := false, isDragging := false,
    lastPointerType := PointerKind.touch }

/-- A pill state whose last recorded pointer kind is mouse. -/
def stMouse : PillState :=
  { isHovered := false, isDragging := false,
    lastPointerType := PointerKind.mouse }

/-- A shared state with no selection. -/
def sEmpty : AppSharedState :=
  { selectedField := none, fieldTypes := [] }

/-- A shared state in which otherField is selected. -/
def sOther : AppSharedState :=
  { selectedField := some otherField, fieldTypes := [] }

/- Helper lemmas shared by the claim theorems. -/

theorem find_after_setData (items : List (String × JsonObject))
    (format : String) (payload : JsonObject) :
    ((items.filter (fun it => !(it.1 == format))) ++ [(format, payload)]).find?
        (fun it => it.1 == format) = some (format, payload) := by
  induction items with
  | nil => simp [List.find?]
  | cons hd tl ih =>
      by_cases hh : hd.1 = format
      · simp [List.filter_cons, hh]
      · simp [List.filter_cons, hh, List.find?]

theorem getData_setData (dt : DataTransfer) (format : String)
    (payload : JsonObject) :
    DataTransfer.getData (DataTransfer.setData dt format payload) format =
      some payload := by
  simp [DataTransfer.getData, DataTransfer.setData, find_after_setData]

/-- C1: for every click whose last recorded pointer kind is touch,
handleClick issues clearSelectedField when this field is the selected
field (name equality against the shared selection) and selectField
otherwise, and applying the click to the shared state clears the
selection, respectively sets it to this field, replacing any previous
one. -/
theorem c1_touch_click_selects_or_clears (st : PillState)
    (s : AppSharedState) (field : DetectedField)
    (h : st.lastPointerType = PointerKind.touch) :
    handleClick st s.selectedField field =
      (if isSelected s.selectedField field then [AppCommand.clearSelectedField]
       else [AppCommand.selectField field]) ∧
    (pillClick field st s).2.selectedField =
      (if isSelected s.selectedField field then none else some field) := by
  by_cases hs : isSelected s.selectedField field
  · simp [handleClick, pillClick, h, hs, applyCommands, applyCommand]
  · simp [handleClick, pillClick, h, hs, applyCommands, applyCommand]

theorem c1_witness :
    stTouch.lastPointerType = PointerKind.touch ∧
    (handleClick stTouch sOther.selectedField sampleField =
      (if isSelected sOther.selectedField sampleField then
         [AppCommand.clearSelectedField]
       else [AppCommand.selectField sampleField]) ∧
     (pillClick sampleField stTouch sOther).2.selectedField =
      (if isSelected sOther.selectedField sampleField then none
       else some sampleField)) :=
  ⟨by decide,
   c1_touch_click_selects_or_clears stTouch sOther sampleField (by decide)⟩

/-- C2: a click whose last recorded pointer kind is mouse, pen or unknown
(the initial value of the ref) leaves both the per-instance state and the
whole shared state unchanged, whatever is currently selected. -/
theorem c2_non_touch_click_is_noop (st : PillState) (s : AppSharedState)
    (field : DetectedField)
    (h : st.lastPointerType = PointerKind.mouse ∨
         st.lastPointerType = PointerKind.pen ∨
         st.lastPointerType = PointerKind.unknown) :
    pillClick field st s = (st, s) := by
  have hne : st.lastPointerType ≠ PointerKind.touch := by
    rcases h with h | h | h <;> simp [h]
  simp [pillClick, handleClick, hne, applyCommands]

theorem c2_witness :
    (stMouse.lastPointerType = PointerKind.mouse ∨
     stMouse.lastPointerType = PointerKind.pen ∨
     stMouse.lastPointerType = PointerKind.unknown) ∧
    pillClick sampleField stMouse sOther = (stMouse, sOther) :=
  ⟨by decide, c2_non_touch_click_is_noop stMouse sOther sampleField (by decide)⟩

/-- C3: drag-start stores, under the media type application/json, the JSON
object holding exactly the name and the type of the field, declares the
copy drop effect and sets the dragging flag; drag-end unconditionally
clears the dragging flag and does nothing else, from every prior state. -/
theorem c3_drag_start_payload_and_drag_end (field : DetectedField)
    (dt : DataTransfer) (st st' : PillState) :
    DataTransfer.getData (handleDragStart field dt st).1 "application/json" =
      some { members :=
               [("name", field.name), ("type", fieldTypeName field.type)] } ∧
    (handleDragStart field dt st).1.effectAllowed = "copy" ∧
    (handleDragStart field dt st).2 = { st with isDragging := true } ∧
    handleDragEnd st' = { st' with isDragging := false } := by
  refine ⟨?_, rfl, rfl, rfl⟩
  show (((DataTransfer.setData dt "application/json"
          (stringifyField field)).items).find?
        (fun it => it.1 == "application/json")).map Prod.snd = _
  rw [DataTransfer.setData,
      find_after_setData dt.items "application/json" (stringifyField field)]
  rfl

/-- C4: pointer-down records the normalized pointer kind of the event,
where every reported value outside mouse, pen, touch collapses to
unknown, and a subsequent click leaves the per-instance state, the ref
included, untouched. -/
theorem c4_pointer_down_normalizes (reported : String) (st : PillState)
    (field : DetectedField) (s : AppSharedState)
    (h : reported ≠ "mouse" ∧ reported ≠ "pen" ∧ reported ≠ "touch") :
    (handlePointerDown reported st).lastPointerType = PointerKind.unknown ∧
    (handlePointerDown "mouse" st).lastPointerType = PointerKind.mouse ∧
    (handlePointerDown "pen" st).lastPointerType = PointerKind.pen ∧
    (handlePointerDown "touch" st).lastPointerType = PointerKind.touch ∧
    (pillClick field st s).1 = st := by
  obtain ⟨h1, h2, h3⟩ := h
  refine ⟨?_, rfl, rfl, rfl, rfl⟩
  simp [handlePointerDown, normalizePointerType, h1, h2, h3]

theorem c4_witness :
    ("gesture" ≠ "mouse" ∧ "gesture" ≠ "pen" ∧ "gesture" ≠ "touch") ∧
    ((handlePointerDown "gesture" stMouse).lastPointerType =
       PointerKind.unknown ∧
     (handlePointerDown "mouse" stMouse).lastPointerType =
       PointerKind.mouse ∧
     (handlePointerDown "pen" stMouse).lastPointerType = PointerKind.pen ∧
     (handlePointerDown "touch" stMouse).lastPointerType =
       PointerKind.touch ∧
     (pillClick sampleField stMouse sEmpty).1 = stMouse) :=
  ⟨by decide,
   c4_pointer_down_normalizes "gesture" stMouse sampleField sEmpty (by decide)⟩

/-- C5: the toggle control is rendered exactly when the pill is hovered
and the field type is nominal or ordinal; in particular it is never
rendered for quantitative or temporal fields, hovered or not. -/
theorem c5_toggle_visibility (st : PillState) (field : DetectedField) :
    toggleRendered field st = true ↔
      (st.isHovered = true ∧
       (field.type = FieldType.nominal ∨ field.type = FieldType.ordinal)) := by
  obtain ⟨n, t⟩ := field
  cases t <;> simp [toggleRendered, canToggle]

/-- C6: a click on the toggle control issues exactly the toggleFieldType
request for this field name, stops propagation so the pill click handler
never runs, leaves the per-instance state (the dragging flag included)
unchanged and leaves the shared selection unchanged. -/
theorem c6_toggle_click_isolated (field : DetectedField) (st : PillState)
    (s : AppSharedState) :
    (toggleButtonClick field).commands =
      [AppCommand.toggleFieldType field.name] ∧
    (toggleButtonClick field).stopProp = true ∧
    clickOnToggle field st s =
      (st, { s with fieldTypes := toggleTypeIn field.name s.fieldTypes }) ∧
    (clickOnToggle field st s).2.selectedField = s.selectedField := by
  refine ⟨rfl, rfl, ?_, ?_⟩ <;>
    simp [clickOnToggle, toggleButtonClick, applyCommands, applyCommand]

/-- C7: the color and label lookups are total over the four field types,
with no missing key, and the labels are Q, N, O, T respectively. -/
theorem c7_type_lookups_total (t : FieldType) :
    (recordLookup TYPE_COLORS t).isSome = true ∧
    recordLookup TYPE_LABELS t =
      some (match t with
            | FieldType.quantitative => "Q"
            | FieldType.nominal => "N"
            | FieldType.ordinal => "O"
            | FieldType.temporal => "T") := by
  cases t <;> exact ⟨rfl, rfl⟩

theorem pillClick_touch_state (st : PillState) (s : AppSharedState)
    (field : DetectedField)
    (h : st.lastPointerType = PointerKind.touch) :
    (pillClick field st s).2 =
      if isSelected s.selectedField field then
        { s with selectedField := none }
      else { s with selectedField := some field } := by
  by_cases hs : isSelected s.selectedField field <;>
    simp [pillClick, handleClick, h, hs, applyCommands, applyCommand]

/-- C8 counterexample: two consecutive touch taps on sampleField, starting
from the state in which otherField is selected, end with the selection
cleared, not with the original selection state restored. -/
theorem c8_counterexample :
    ¬ ((pillClick sampleField stTouch
          (pillClick sampleField stTouch sOther).2).2 = sOther) := by
  decide

/-- C8 (amended): each touch tap flips the selected status of the tapped
field, so two consecutive taps restore the original selected status of
that field; the full shared selection state is restored only when the
tapped field itself was the selection, or nothing was selected. -/
theorem c8_touch_tap_flips (st : PillState) (s : AppSharedState)
    (field : DetectedField) (h : st.lastPointerType = PointerKind.touch) :
    isSelected (pillClick field st s).2.selectedField field =
      !(isSelected s.selectedField field) ∧
    isSelected (pillClick field st (pillClick field st s).2).2.selectedField
        field = isSelected s.selectedField field ∧
    ((s.selectedField = some field ∨ s.selectedField = none) →
      (pillClick field st (pillClick field st s).2).2 = s) := by
  by_cases hs : isSelected s.selectedField field
  · have e1 : (pillClick field st s).2 = { s with selectedField := none } := by
      rw [pillClick_touch_state st s field h, if_pos hs]
    have e2 : (pillClick field st { s with selectedField := none }).2 =
        { s with selectedField := some field } := by
      rw [pillClick_touch_state st _ field h]
      simp [isSelected]
    refine ⟨?_, ?_, ?_⟩
    · rw [e1]; simp [isSelected]; exact hs
    · rw [e1, e2]; simp [isSelected]; exact hs
    · rintro (hf | hf)
      · rw [e1, e2, ← hf]
      · rw [hf] at hs; simp [isSelected] at hs
  · have e1 : (pillClick field st s).2 =
        { s with selectedField := some field } := by
      rw [pillClick_touch_state st s field h, if_neg hs]
    have e2 : (pillClick field st { s with selectedField := some field }).2 =
        { s with selectedField := none } := by
      rw [pillClick_touch_state st _ field h]
      simp [isSelected]
    have hs' : isSelected s.selectedField field = false := by
      simp at hs; exact hs
    refine ⟨?_, ?_, ?_⟩
    · rw [e1]; simp [isSelected]; exact hs'
    · rw [e1, e2]; simp [isSelected]; exact hs'
    · rintro (hf | hf)
      · rw [hf] at hs; simp [isSelected] at hs
      · rw [e1, e2, ← hf]

theorem c8_witness :
    stTouch.lastPointerType = PointerKind.touch ∧
    (isSelected (pillClick sampleField stTouch sEmpty).2.selectedField
        sampleField =
      !(isSelected sEmpty.selectedField sampleField) ∧
     isSelected
        (pillClick sampleField stTouch
          (pillClick sampleField stTouch sEmpty).2).2.selectedField
        sampleField = isSelected sEmpty.selectedField sampleField ∧
     ((sEmpty.selectedField = some sampleField ∨
       sEmpty.selectedField = none) →
      (pillClick sampleField stTouch
         (pillClick sampleField stTouch sEmpty).2).2 = sEmpty)) :=
  ⟨by decide, c8_touch_tap_flips stTouch sEmpty sampleField (by decide)⟩

/-- C9: drag-start does not read the recorded pointer kind or the other
per-instance flags: two arbitrary per-instance states produce the same
DataTransfer output, and in both the only per-instance change is the
dragging flag becoming true. -/
theorem c9_drag_start_pointer_independent (field : DetectedField)
    (dt : DataTransfer) (st1 st2 : PillState) :
    (handleDragStart field dt st1).1 = (handleDragStart field dt st2).1 ∧
    (handleDragStart field dt st1).2 = { st1 with isDragging := true } ∧
    (handleDragStart field dt st2).2 = { st2 with isDragging := true } :=
  ⟨rfl, rfl, rfl⟩

/-- C10: when nothing is selected, the optional-chained comparison of
isSelected evaluates to false without faulting, and a touch click then
issues selectField, ending with this field selected. -/
theorem c10_no_selection_click_selects (st : PillState)
    (s : AppSharedState) (field : DetectedField)
    (h1 : s.selectedField = none)
    (h2 : st.lastPointerType = PointerKind.touch) :
    isSelected s.selectedField field = false ∧
    handleClick st s.selectedField field = [AppCommand.selectField field] ∧
    (pillClick field st s).2.selectedField = some field := by
  simp [isSelected, h1, handleClick, h2, pillClick, applyCommands,
        applyCommand]

theorem c10_witness :
    sEmpty.selectedField = none ∧
    stTouch.lastPointerType = PointerKind.touch ∧
    (isSelected sEmpty.selectedField sampleField = false ∧
     handleClick stTouch sEmpty.selectedField sampleField =
       [AppCommand.selectField sampleField] ∧
     (pillClick sampleField stTouch sEmpty).2.selectedField =
       some sampleField) :=
  ⟨by decide, by decide,
   c10_no_selection_click_selects stTouch sEmpty sampleField (by decide)
     (by decide)⟩

end FieldPill
